import Mathlib

/-!
Verification of gclient_tracer_metrics.go (package gclient): the HTTP client
connection-lifecycle tracer that maintains an open-connections gauge
(partitioned by active/idle state and request attribution) and a
connect-duration histogram, and forwards every lifecycle callback to a
wrapped delegate tracer.

Embedding: each callback of clientTracerMetrics is a pure function from the
tracer state (the struct fields Request and ConnectStartTime) to the updated
state together with the ordered list of side effects it performs. Metric
instrument updates, the attribution-field write, the timestamp capture and
the forwarding call to the delegate are all recorded as effects, in the
order the Go source performs them. The delegate (the embedded
httptrace.ClientTrace) is modelled by the Effect.delegate channel; the only
hook whose delegate return value flows back to the caller, Got1xxResponse,
additionally keeps the delegate behaviour as a function field.
-/

/-- Wall-clock instant in nanoseconds, embedding gtime.Time. -/
structure GTime where
  ns : Int
deriving DecidableEq, Repr

/-- Modelled from the spec: gtime.Time.Sub (package gtime sits outside this
file); the difference of two instants as a Go time.Duration in nanoseconds.
The Go method dereferences its argument, so callers must hold an actual
instant, not a nil pointer; the tracer code below makes that explicit by
matching on the optional stored timestamp before calling this. -/
def GTime.sub (t u : GTime) : Int :=
  t.ns - u.ns

/-- Go time.Duration.Milliseconds: the nanosecond count divided by one
million, truncated toward zero (Int.div is T-division, matching Go). The Go
code then casts the int64 result to float64; every realistic millisecond
count is far below 2^53, so the cast is exact and the value is modelled as
the integer itself. -/
def durationMilliseconds (d : Int) : Int :=
  Int.tdiv d 1000000

/-- The fields of the http.Request the tracer reads or writes: RemoteAddr
(the address-attribution field ConnectStart may set) and an opaque label
field standing for everything the external MetricAttributor derives labels
from (method, host, ...). -/
structure http.Request where
  RemoteAddr : String
  labels : String
deriving DecidableEq, Repr

/-- httptrace.GotConnInfo: the two booleans the tracer inspects. -/
structure httptrace.GotConnInfo where
  Reused : Bool
  WasIdle : Bool
deriving DecidableEq, Repr

/-- httptrace.DNSStartInfo. -/
structure httptrace.DNSStartInfo where
  Host : String
deriving DecidableEq, Repr

/-- httptrace.DNSDoneInfo; Err is an optional error message. -/
structure httptrace.DNSDoneInfo where
  Addrs : List String
  Err : Option String
  Coalesced : Bool
deriving DecidableEq, Repr

/-- tls.ConnectionState, opaque to the tracer. -/
structure tls.ConnectionState where
  HandshakeComplete : Bool
deriving DecidableEq, Repr

/-- httptrace.WroteRequestInfo; Err is an optional error message. -/
structure httptrace.WroteRequestInfo where
  Err : Option String
deriving DecidableEq, Repr

/-- The delegate tracer (the embedded httptrace.ClientTrace). Its void hooks
are observed through Effect.delegate in the effect trace; Got1xxResponse is
the one hook whose return value the wrapper must hand back to the transport,
so its behaviour is kept as a function. The header is a textproto.MIMEHeader
given as an association list; errors are Option String (none is nil). -/
structure httptrace.ClientTrace where
  Got1xxResponse : Int → List (String × List String) → Option String

/-- Connection state dimension of the open-connections gauge. -/
inductive ConnectionState where
  | active
  | idle
deriving DecidableEq, Repr

/-- Modelled from the spec: the connectionStateActive constant (defined in
the metrics file of package gclient, outside this file). -/
def connectionStateActive : ConnectionState :=
  ConnectionState.active

/-- Modelled from the spec: the connectionStateIdle constant (defined in
the metrics file of package gclient, outside this file). -/
def connectionStateIdle : ConnectionState :=
  ConnectionState.idle

/-- Modelled from the spec: metricManager.GetMetricAttributeMap, the
external MetricAttributor; a pure, idempotent map from the request to its
label set, independent of the mutable RemoteAddr field. -/
def GetMetricAttributeMap (r : http.Request) : String :=
  r.labels

/-- Modelled from the spec: metricManager.GetMetricOptionForConnectionDuration,
the label set attached to the connect-duration histogram observation. -/
def GetMetricOptionForConnectionDuration (r : http.Request) : String :=
  r.labels

/-- One invocation of one of the sixteen lifecycle hooks, with its
arguments. Used both to record a forwarding call to the delegate and to
drive whole-sequence executions of the tracer. -/
inductive HookCall where
  | getConn (hostPort : String)
  | gotConn (info : httptrace.GotConnInfo)
  | putIdleConn (err : Option String)
  | gotFirstResponseByte
  | got100Continue
  | got1xxResponse (code : Int) (header : List (String × List String))
  | dnsStart (info : httptrace.DNSStartInfo)
  | dnsDone (info : httptrace.DNSDoneInfo)
  | connectStart (network : String) (addr : String)
  | connectDone (network : String) (addr : String) (err : Option String)
  | tlsHandshakeStart
  | tlsHandshakeDone (state : tls.ConnectionState) (err : Option String)
  | wroteHeaderField (key : String) (value : List String)
  | wroteHeaders
  | wait100Continue
  | wroteRequest (info : httptrace.WroteRequestInfo)
deriving DecidableEq, Repr

/-- One side effect a callback performs, in program order: a gauge update
Add(ctx, delta, option(state, attributes)), a histogram Record(value,
option(attributes)), the write of the address-attribution field, the
capture of the connect-start timestamp, or the forwarding call to the
delegate hook. -/
inductive Effect where
  | gaugeAdd (delta : Int) (state : ConnectionState) (attributes : String)
  | histRecord (valueMs : Int) (attributes : String)
  | setRemoteAddr (addr : String)
  | setConnectStartTime (t : GTime)
  | delegate (call : HookCall)
deriving DecidableEq, Repr

/-- The tracer struct clientTracerMetrics: the request it is bound to, the
mutable connect-start timestamp (a nil-able pointer, hence Option, left
unset by the constructor), and the embedded delegate httptrace.ClientTrace. -/
structure clientTracerMetrics where
  Request : http.Request
  ConnectStartTime : Option GTime
  ClientTrace : httptrace.ClientTrace

/-- newClientTracerMetrics: binds the tracer to the request and the base
delegate tracer; the ConnectStartTime field is left at its zero value (nil). -/
def newClientTracerMetrics (request : http.Request)
    (baseClientTracer : httptrace.ClientTrace) : clientTracerMetrics :=
  ⟨request, none, baseClientTracer⟩

/-- GetConn: no metric side effect, forward to the delegate. -/
def clientTracerMetrics.GetConn (ct : clientTracerMetrics) (hostPort : String) :
    clientTracerMetrics × List Effect :=
  (ct, [Effect.delegate (HookCall.getConn hostPort)])

/-- GotConn: when the connection is not reused, add +1 to the
open-connections gauge for the active state under the request attribution;
when it additionally came out of the idle pool, add -1 for the idle state;
when reused, no gauge update; then forward to the delegate. -/
def clientTracerMetrics.GotConn (ct : clientTracerMetrics)
    (info : httptrace.GotConnInfo) : clientTracerMetrics × List Effect :=
  let attrMap := GetMetricAttributeMap ct.Request
  let metricEffects :=
    if !info.Reused then
      Effect.gaugeAdd 1 connectionStateActive attrMap ::
        (if info.WasIdle then
          [Effect.gaugeAdd (-1) connectionStateIdle attrMap]
        else [])
    else []
  (ct, metricEffects ++ [Effect.delegate (HookCall.gotConn info)])

/-- PutIdleConn: add -1 to the open-connections gauge for the active state
unconditionally; when err is nil, add +1 for the idle state; then forward
to the delegate. -/
def clientTracerMetrics.PutIdleConn (ct : clientTracerMetrics)
    (err : Option String) : clientTracerMetrics × List Effect :=
  let attrMap := GetMetricAttributeMap ct.Request
  (ct,
    (Effect.gaugeAdd (-1) connectionStateActive attrMap ::
      (if err = none then
        [Effect.gaugeAdd 1 connectionStateIdle attrMap]
      else [])) ++
    [Effect.delegate (HookCall.putIdleConn err)])

/-- GotFirstResponseByte: forward only. -/
def clientTracerMetrics.GotFirstResponseByte (ct : clientTracerMetrics) :
    clientTracerMetrics × List Effect :=
  (ct, [Effect.delegate HookCall.gotFirstResponseByte])

/-- Got100Continue: forward only. -/
def clientTracerMetrics.Got100Continue (ct : clientTracerMetrics) :
    clientTracerMetrics × List Effect :=
  (ct, [Effect.delegate HookCall.got100Continue])

/-- Got1xxResponse: forward to the delegate and return the delegate result
verbatim; no metric side effect. -/
def clientTracerMetrics.Got1xxResponse (ct : clientTracerMetrics) (code : Int)
    (header : List (String × List String)) :
    (clientTracerMetrics × List Effect) × Option String :=
  ((ct, [Effect.delegate (HookCall.got1xxResponse code header)]),
    ct.ClientTrace.Got1xxResponse code header)

/-- DNSStart: forward only. -/
def clientTracerMetrics.DNSStart (ct : clientTracerMetrics)
    (info : httptrace.DNSStartInfo) : clientTracerMetrics × List Effect :=
  (ct, [Effect.delegate (HookCall.dnsStart info)])

/-- DNSDone: forward only. -/
def clientTracerMetrics.DNSDone (ct : clientTracerMetrics)
    (info : httptrace.DNSDoneInfo) : clientTracerMetrics × List Effect :=
  (ct, [Effect.delegate (HookCall.dnsDone info)])

/-- ConnectStart: write addr into Request.RemoteAddr only when that field is
empty; capture the current time as the connect-start timestamp (an
overwrite when one is already pending); then forward to the delegate. The
clock read gtime.Now() is passed in as the argument now. -/
def clientTracerMetrics.ConnectStart (ct : clientTracerMetrics) (now : GTime)
    (network : String) (addr : String) : clientTracerMetrics × List Effect :=
  let (request, addrEffects) :=
    if ct.Request.RemoteAddr = "" then
      (⟨addr, ct.Request.labels⟩, [Effect.setRemoteAddr addr])
    else (ct.Request, [])
  (⟨request, some now, ct.ClientTrace⟩,
    addrEffects ++
      [Effect.setConnectStartTime now,
       Effect.delegate (HookCall.connectStart network addr)])

/-- ConnectDone: record the elapsed milliseconds since the stored
connect-start timestamp into the connect-duration histogram, regardless of
err; then forward to the delegate. The Go code dereferences
ct.ConnectStartTime through gtime.Time.Sub, so when no ConnectStart has run
(the pointer is nil) the call faults: that outcome is none. The clock read
gtime.Now() is passed in as the argument now. -/
def clientTracerMetrics.ConnectDone (ct : clientTracerMetrics) (now : GTime)
    (network : String) (addr : String) (err : Option String) :
    Option (clientTracerMetrics × List Effect) :=
  match ct.ConnectStartTime with
  | none => none
  | some start =>
    some (ct,
      [Effect.histRecord (durationMilliseconds (GTime.sub now start))
        (GetMetricOptionForConnectionDuration ct.Request),
       Effect.delegate (HookCall.connectDone network addr err)])

/-- TLSHandshakeStart: forward only. -/
def clientTracerMetrics.TLSHandshakeStart (ct : clientTracerMetrics) :
    clientTracerMetrics × List Effect :=
  (ct, [Effect.delegate HookCall.tlsHandshakeStart])

/-- TLSHandshakeDone: forward only. -/
def clientTracerMetrics.TLSHandshakeDone (ct : clientTracerMetrics)
    (state : tls.ConnectionState) (err : Option String) :
    clientTracerMetrics × List Effect :=
  (ct, [Effect.delegate (HookCall.tlsHandshakeDone state err)])

/-- WroteHeaderField: forward only. -/
def clientTracerMetrics.WroteHeaderField (ct : clientTracerMetrics)
    (key : String) (value : List String) : clientTracerMetrics × List Effect :=
  (ct, [Effect.delegate (HookCall.wroteHeaderField key value)])

/-- WroteHeaders: forward only. -/
def clientTracerMetrics.WroteHeaders (ct : clientTracerMetrics) :
    clientTracerMetrics × List Effect :=
  (ct, [Effect.delegate HookCall.wroteHeaders])

/-- Wait100Continue: forward only. -/
def clientTracerMetrics.Wait100Continue (ct : clientTracerMetrics) :
    clientTracerMetrics × List Effect :=
  (ct, [Effect.delegate HookCall.wait100Continue])

/-- WroteRequest: forward only. -/
def clientTracerMetrics.WroteRequest (ct : clientTracerMetrics)
    (info : httptrace.WroteRequestInfo) : clientTracerMetrics × List Effect :=
  (ct, [Effect.delegate (HookCall.wroteRequest info)])

/-- The gauge updates in an effect list, in order: (delta, state, attributes)
triples, one per HttpClientOpenConnections.Add call. -/
def gaugeAdds (effs : List Effect) : List (Int × ConnectionState × String) :=
  effs.filterMap fun e =>
    match e with
    | Effect.gaugeAdd d s a => some (d, s, a)
    | _ => none

/-- The histogram observations in an effect list, in order: (value,
attributes) pairs, one per HttpClientConnectionDuration.Record call. -/
def histRecords (effs : List Effect) : List (Int × String) :=
  effs.filterMap fun e =>
    match e with
    | Effect.histRecord v a => some (v, a)
    | _ => none

/-- The forwarding calls to the delegate tracer in an effect list, in order. -/
def delegateCalls (effs : List Effect) : List HookCall :=
  effs.filterMap fun e =>
    match e with
    | Effect.delegate c => some c
    | _ => none

/-- Whether an effect is a forwarding call to the delegate. -/
def Effect.isDelegate : Effect → Bool
  | Effect.delegate _ => true
  | _ => false

/-- The own bookkeeping of the tracer in an effect list: every effect that
is not a forwarding call to the delegate. -/
def bookkeeping (effs : List Effect) : List Effect :=
  effs.filter fun e => !e.isDelegate

/-- Net delta an effect list contributes to the open-connections gauge for
one connection state (summed over all Add calls for that state). -/
def gaugeSum (st : ConnectionState) : List Effect → Int
  | [] => 0
  | Effect.gaugeAdd d s _ :: rest =>
      (if s = st then d else 0) + gaugeSum st rest
  | _ :: rest => gaugeSum st rest

/-- One event of a single connection life as the tracer sees it: a GotConn
or a PutIdleConn callback. -/
inductive ConnEvent where
  | gotConn (info : httptrace.GotConnInfo)
  | putIdleConn (err : Option String)
deriving DecidableEq, Repr

/-- The effect list the tracer emits for one connection-life event. GotConn
and PutIdleConn leave the tracer state unchanged, so the effects of a
sequence of such events are the concatenation of the per-event effects. -/
def connEventEffects (ct : clientTracerMetrics) : ConnEvent → List Effect
  | ConnEvent.gotConn info => (ct.GotConn info).2
  | ConnEvent.putIdleConn err => (ct.PutIdleConn err).2

/-- Event number i of a single connection life, in the encoding of the spec:
event 0 is the brand-new acquisition GotConn(Reused=false, WasIdle=false);
odd events are healthy returns PutIdleConn(nil); later even events are
reuses out of the idle pool, reported as GotConn(Reused=false, WasIdle=true). -/
def connLifeEvent (i : Nat) : ConnEvent :=
  if i = 0 then ConnEvent.gotConn ⟨false, false⟩
  else if i % 2 = 1 then ConnEvent.putIdleConn none
  else ConnEvent.gotConn ⟨false, true⟩

/-- The first n events of a single connection life. Every prefix of a
connection life has this form, so quantifying over n quantifies over all
prefixes. -/
def connLife (n : Nat) : List ConnEvent :=
  (List.range n).map connLifeEvent

/-- Accumulated net delta a sequence of connection-life events emits to the
open-connections gauge for one connection state. -/
def eventGaugeSum (ct : clientTracerMetrics) (st : ConnectionState)
    (evs : List ConnEvent) : Int :=
  (evs.map fun e => gaugeSum st (connEventEffects ct e)).sum

/-- Dispatch one hook invocation to the corresponding callback of the
tracer; the clock reads of ConnectStart and ConnectDone take the supplied
instant. The result is none when the callback faults (ConnectDone with no
stored connect-start timestamp). -/
def dispatch (ct : clientTracerMetrics) (now : GTime) :
    HookCall → Option (clientTracerMetrics × List Effect)
  | HookCall.getConn h => some (ct.GetConn h)
  | HookCall.gotConn i => some (ct.GotConn i)
  | HookCall.putIdleConn e => some (ct.PutIdleConn e)
  | HookCall.gotFirstResponseByte => some ct.GotFirstResponseByte
  | HookCall.got100Continue => some ct.Got100Continue
  | HookCall.got1xxResponse c h => some (ct.Got1xxResponse c h).1
  | HookCall.dnsStart i => some (ct.DNSStart i)
  | HookCall.dnsDone i => some (ct.DNSDone i)
  | HookCall.connectStart nw a => some (ct.ConnectStart now nw a)
  | HookCall.connectDone nw a e => ct.ConnectDone now nw a e
  | HookCall.tlsHandshakeStart => some ct.TLSHandshakeStart
  | HookCall.tlsHandshakeDone s e => some (ct.TLSHandshakeDone s e)
  | HookCall.wroteHeaderField k v => some (ct.WroteHeaderField k v)
  | HookCall.wroteHeaders => some ct.WroteHeaders
  | HookCall.wait100Continue => some ct.Wait100Continue
  | HookCall.wroteRequest i => some (ct.WroteRequest i)

/-- Run a timed sequence of hook invocations from a tracer state; none as
soon as one invocation faults. -/
def runCalls : clientTracerMetrics → List (GTime × HookCall) →
    Option clientTracerMetrics
  | ct, [] => some ct
  | ct, (now, c) :: rest =>
    match dispatch ct now c with
    | none => none
    | some (st, _) => runCalls st rest

/-- Run a sequence of ConnectStart invocations, each given as (clock
instant, network, addr), from a tracer state. -/
def runConnectStarts : clientTracerMetrics →
    List (GTime × String × String) → clientTracerMetrics
  | ct, [] => ct
  | ct, (now, nw, addr) :: rest =>
    runConnectStarts (ct.ConnectStart now nw addr).1 rest

/-- Modelled from the spec: availability of the process-wide metric
instruments and of the attribution map, all held by the metricManager
defined outside this file. -/
structure MetricBackend where
  gaugeAvailable : Bool
  histAvailable : Bool
  attrAvailable : Bool
deriving DecidableEq, Repr

/-- The state of the metric backend: the open-connections gauge value per
(connection state, attributes) and the connect-duration observations per
attributes. -/
structure MetricState where
  openConnections : ConnectionState → String → Int
  connectionDuration : String → List Int

/-- Modelled from the spec: how the metric backend absorbs one effect. An
Add or Record against an unavailable instrument or attribution map is
absorbed silently as a no-op and never fails the request path; available
instruments accumulate additively. Effects that are not instrument calls do
not touch the backend. -/
def applyEffect (be : MetricBackend) (ms : MetricState) : Effect → MetricState
  | Effect.gaugeAdd d st attr =>
    if be.gaugeAvailable && be.attrAvailable then
      ⟨fun s a =>
          if s = st ∧ a = attr then ms.openConnections s a + d
          else ms.openConnections s a,
        ms.connectionDuration⟩
    else ms
  | Effect.histRecord v attr =>
    if be.histAvailable && be.attrAvailable then
      ⟨ms.openConnections,
        fun a =>
          if a = attr then ms.connectionDuration a ++ [v]
          else ms.connectionDuration a⟩
    else ms
  | _ => ms

/-- Fold an effect list into the metric backend state. -/
def applyEffects (be : MetricBackend) (ms : MetricState)
    (effs : List Effect) : MetricState :=
  effs.foldl (applyEffect be) ms

/-- A delegate tracer whose Got1xxResponse always succeeds. -/
def noopTrace : httptrace.ClientTrace :=
  ⟨fun _ _ => none⟩

/-- A delegate tracer whose Got1xxResponse aborts with an error. -/
def abortTrace : httptrace.ClientTrace :=
  ⟨fun _ _ => some "abort"⟩

/-- A concrete tracer with an empty RemoteAddr and no pending connect-start
timestamp. -/
def ctFresh : clientTracerMetrics :=
  ⟨⟨"", "GET example.org"⟩, none, noopTrace⟩

/-- A concrete tracer with a pending connect-start timestamp at instant 0. -/
def ctStarted : clientTracerMetrics :=
  ⟨⟨"1.2.3.4:443", "GET example.org"⟩, some ⟨0⟩, noopTrace⟩

/-- A concrete tracer whose delegate Got1xxResponse aborts the request. -/
def ctAbort : clientTracerMetrics :=
  ⟨⟨"", "POST example.org"⟩, none, abortTrace⟩

/-- C1: a GotConn invocation with Reused=false adds +1 to the
open-connections gauge for the active state under the request attribution
and, when WasIdle additionally holds, adds -1 for the idle state; with
Reused=true it emits no gauge update at all, whatever WasIdle is. -/
theorem GotConn_gauge_classification (ct : clientTracerMetrics)
    (info : httptrace.GotConnInfo) :
    gaugeAdds (ct.GotConn info).2 =
      if info.Reused then []
      else
        ((1 : Int), connectionStateActive, GetMetricAttributeMap ct.Request) ::
          (if info.WasIdle then
            [((-1 : Int), connectionStateIdle, GetMetricAttributeMap ct.Request)]
          else []) := by
  obtain ⟨r, w⟩ := info
  cases r <;> cases w <;> rfl

/-- C1 witness: the idle-reuse case GotConn(Reused=false, WasIdle=true) on a
concrete tracer. -/
theorem GotConn_gauge_classification_witness :
    gaugeAdds (ctFresh.GotConn ⟨false, true⟩).2 =
      if (⟨false, true⟩ : httptrace.GotConnInfo).Reused then []
      else
        ((1 : Int), connectionStateActive, GetMetricAttributeMap ctFresh.Request) ::
          (if (⟨false, true⟩ : httptrace.GotConnInfo).WasIdle then
            [((-1 : Int), connectionStateIdle,
              GetMetricAttributeMap ctFresh.Request)]
          else []) :=
  GotConn_gauge_classification ctFresh ⟨false, true⟩

/-- C2: a PutIdleConn invocation adds -1 to the open-connections gauge for
the active state unconditionally and adds +1 for the idle state exactly
when err is nil; a non-nil err leaves only the active decrement. -/
theorem PutIdleConn_gauge_transition (ct : clientTracerMetrics)
    (err : Option String) :
    gaugeAdds (ct.PutIdleConn err).2 =
      ((-1 : Int), connectionStateActive, GetMetricAttributeMap ct.Request) ::
        (if err = none then
          [((1 : Int), connectionStateIdle, GetMetricAttributeMap ct.Request)]
        else []) := by
  cases err <;> rfl

/-- C2 witness: a failed return PutIdleConn(non-nil) on a concrete tracer
decrements active with no compensating idle increment. -/
theorem PutIdleConn_gauge_transition_witness :
    gaugeAdds (ctFresh.PutIdleConn (some "connection closed")).2 =
      ((-1 : Int), connectionStateActive, GetMetricAttributeMap ctFresh.Request) ::
        (if (some "connection closed" : Option String) = none then
          [((1 : Int), connectionStateIdle,
            GetMetricAttributeMap ctFresh.Request)]
        else []) :=
  PutIdleConn_gauge_transition ctFresh (some "connection closed")

/-- C3: when a connect-start timestamp is stored, ConnectDone emits exactly
one histogram observation, valued at the elapsed milliseconds since that
timestamp under the request attribution, regardless of err, then forwards;
ConnectStart emits no histogram observation and overwrites the stored
timestamp with its own clock reading, so the stored timestamp is always the
most recent ConnectStart instant. -/
theorem ConnectDone_records_elapsed_once (ct : clientTracerMetrics)
    (now now2 start : GTime) (network addr network2 addr2 : String)
    (err : Option String) (h : ct.ConnectStartTime = some start) :
    ct.ConnectDone now network addr err =
      some (ct,
        [Effect.histRecord (durationMilliseconds (GTime.sub now start))
           (GetMetricOptionForConnectionDuration ct.Request),
         Effect.delegate (HookCall.connectDone network addr err)])
    ∧ histRecords (ct.ConnectStart now2 network2 addr2).2 = []
    ∧ ((ct.ConnectStart now2 network2 addr2).1).ConnectStartTime = some now2 := by
  refine ⟨?_, ?_, ?_⟩
  · simp [clientTracerMetrics.ConnectDone, h]
  · by_cases hr : ct.Request.RemoteAddr = "" <;>
      simp [clientTracerMetrics.ConnectStart, hr, histRecords]
  · by_cases hr : ct.Request.RemoteAddr = "" <;>
      simp [clientTracerMetrics.ConnectStart, hr]

/-- C3 witness: a dial that starts at instant 0 and completes 42
milliseconds later records exactly one observation of 42. -/
theorem ConnectDone_records_elapsed_once_witness :
    ctStarted.ConnectStartTime = some ⟨0⟩
    ∧ (ctStarted.ConnectDone ⟨42000000⟩ "tcp" "1.2.3.4:443" none =
        some (ctStarted,
          [Effect.histRecord
             (durationMilliseconds (GTime.sub ⟨42000000⟩ ⟨0⟩))
             (GetMetricOptionForConnectionDuration ctStarted.Request),
           Effect.delegate (HookCall.connectDone "tcp" "1.2.3.4:443" none)])
      ∧ histRecords (ctStarted.ConnectStart ⟨50000000⟩ "tcp" "5.6.7.8:443").2 = []
      ∧ ((ctStarted.ConnectStart ⟨50000000⟩ "tcp" "5.6.7.8:443").1).ConnectStartTime
          = some ⟨50000000⟩) :=
  ⟨rfl,
    ConnectDone_records_elapsed_once ctStarted ⟨42000000⟩ ⟨50000000⟩ ⟨0⟩
      "tcp" "1.2.3.4:443" "tcp" "5.6.7.8:443" none rfl⟩

/-- C9: Got1xxResponse returns exactly the delegate result for the same
arguments, including a non-nil error, leaves the tracer state unchanged,
and performs no effect of its own beyond the single forwarding call. -/
theorem Got1xxResponse_passthrough (ct : clientTracerMetrics) (code : Int)
    (header : List (String × List String)) :
    (ct.Got1xxResponse code header).2 = ct.ClientTrace.Got1xxResponse code header
    ∧ (ct.Got1xxResponse code header).1.1 = ct
    ∧ (ct.Got1xxResponse code header).1.2 =
        [Effect.delegate (HookCall.got1xxResponse code header)] :=
  ⟨rfl, rfl, rfl⟩

/-- C9 witness: with a delegate that aborts, the non-nil error comes back
unmodified. -/
theorem Got1xxResponse_passthrough_witness :
    (ctAbort.Got1xxResponse 103 [("Link", ["</style.css>"])]).2 =
       ctAbort.ClientTrace.Got1xxResponse 103 [("Link", ["</style.css>"])]
    ∧ (ctAbort.Got1xxResponse 103 [("Link", ["</style.css>"])]).1.1 = ctAbort
    ∧ (ctAbort.Got1xxResponse 103 [("Link", ["</style.css>"])]).1.2 =
        [Effect.delegate
          (HookCall.got1xxResponse 103 [("Link", ["</style.css>"])])] :=
  Got1xxResponse_passthrough ctAbort 103 [("Link", ["</style.css>"])]

@[simp]
lemma delegateCalls_nil : delegateCalls [] = [] := rfl

@[simp]
lemma delegateCalls_gauge_cons (d : Int) (s : ConnectionState) (a : String)
    (l : List Effect) :
    delegateCalls (Effect.gaugeAdd d s a :: l) = delegateCalls l := rfl

@[simp]
lemma delegateCalls_hist_cons (v : Int) (a : String) (l : List Effect) :
    delegateCalls (Effect.histRecord v a :: l) = delegateCalls l := rfl

@[simp]
lemma delegateCalls_setAddr_cons (a : String) (l : List Effect) :
    delegateCalls (Effect.setRemoteAddr a :: l) = delegateCalls l := rfl

@[simp]
lemma delegateCalls_setTime_cons (t : GTime) (l : List Effect) :
    delegateCalls (Effect.setConnectStartTime t :: l) = delegateCalls l := rfl

@[simp]
lemma delegateCalls_delegate_cons (c : HookCall) (l : List Effect) :
    delegateCalls (Effect.delegate c :: l) = c :: delegateCalls l := rfl

@[simp]
lemma bookkeeping_nil : bookkeeping [] = [] := rfl

@[simp]
lemma bookkeeping_gauge_cons (d : Int) (s : ConnectionState) (a : String)
    (l : List Effect) :
    bookkeeping (Effect.gaugeAdd d s a :: l) =
      Effect.gaugeAdd d s a :: bookkeeping l := rfl

@[simp]
lemma bookkeeping_hist_cons (v : Int) (a : String) (l : List Effect) :
    bookkeeping (Effect.histRecord v a :: l) =
      Effect.histRecord v a :: bookkeeping l := rfl

@[simp]
lemma bookkeeping_setAddr_cons (a : String) (l : List Effect) :
    bookkeeping (Effect.setRemoteAddr a :: l) =
      Effect.setRemoteAddr a :: bookkeeping l := rfl

@[simp]
lemma bookkeeping_setTime_cons (t : GTime) (l : List Effect) :
    bookkeeping (Effect.setConnectStartTime t :: l) =
      Effect.setConnectStartTime t :: bookkeeping l := rfl

@[simp]
lemma bookkeeping_delegate_cons (c : HookCall) (l : List Effect) :
    bookkeeping (Effect.delegate c :: l) = bookkeeping l := rfl

lemma connEvent_active_delta (ct : clientTracerMetrics) (i : Nat) :
    gaugeSum ConnectionState.active (connEventEffects ct (connLifeEvent i)) =
      if i % 2 = 0 then 1 else -1 := by
  unfold connLifeEvent
  by_cases h0 : i = 0
  · subst h0
    norm_num
    rfl
  · by_cases h1 : i % 2 = 1
    · have h2 : ¬ i % 2 = 0 := by omega
      simp only [h0, if_false, h1, if_true, h2]
      rfl
    · have h2 : i % 2 = 0 := by omega
      simp only [h0, if_false, h1, h2, if_true]
      rfl

lemma connLife_succ (n : Nat) :
    connLife (n + 1) = connLife n ++ [connLifeEvent n] := by
  simp [connLife, List.range_succ]

lemma eventGaugeSum_append (ct : clientTracerMetrics) (st : ConnectionState)
    (l1 l2 : List ConnEvent) :
    eventGaugeSum ct st (l1 ++ l2) =
      eventGaugeSum ct st l1 + eventGaugeSum ct st l2 := by
  simp [eventGaugeSum]

lemma connLife_active_sum (ct : clientTracerMetrics) (n : Nat) :
    eventGaugeSum ct ConnectionState.active (connLife n) =
      if n % 2 = 1 then 1 else 0 := by
  induction n with
  | zero => rfl
  | succ n ih =>
    rw [connLife_succ, eventGaugeSum_append, ih]
    have hev := connEvent_active_delta ct n
    have hone : eventGaugeSum ct ConnectionState.active [connLifeEvent n] =
        if n % 2 = 0 then 1 else -1 := by
      simp [eventGaugeSum, hev]
    rw [hone]
    rcases Nat.mod_two_eq_zero_or_one n with h | h
    · have h1 : (n + 1) % 2 = 1 := by omega
      simp [h, h1]
    · have h1 : (n + 1) % 2 = 0 := by omega
      simp [h, h1]

lemma connLife_take (n k : Nat) :
    (connLife n).take k = connLife (min k n) := by
  simp [connLife, ← List.map_take, List.take_range]

/-- C4: over any single-connection life — a brand-new GotConn, then
alternating healthy PutIdleConn(nil) returns and idle-pool reuses reported
as GotConn(Reused=false, WasIdle=true), the encoding of the spec — the net
delta the tracer emits to the active-state gauge is +1 after each GotConn
(prefixes of odd length), 0 after each successful PutIdleConn (prefixes of
even length), and no prefix of the sequence ever has a negative net delta. -/
theorem connLife_active_gauge_invariant (ct : clientTracerMetrics) (n : Nat) :
    eventGaugeSum ct ConnectionState.active (connLife n) =
      (if n % 2 = 1 then 1 else 0)
    ∧ ∀ k : Nat,
        0 ≤ eventGaugeSum ct ConnectionState.active ((connLife n).take k) := by
  refine ⟨connLife_active_sum ct n, fun k => ?_⟩
  rw [connLife_take, connLife_active_sum]
  split <;> norm_num

/-- C4 witness: the three-event life acquire, idle, reuse on a concrete
tracer. -/
theorem connLife_active_gauge_invariant_witness :
    eventGaugeSum ctFresh ConnectionState.active (connLife 3) =
      (if 3 % 2 = 1 then 1 else 0)
    ∧ ∀ k : Nat,
        0 ≤ eventGaugeSum ctFresh ConnectionState.active ((connLife 3).take k) :=
  connLife_active_gauge_invariant ctFresh 3

/-- C5: any single invocation of an entry point returned by the constructor
forwards to the delegate exactly once: for every hook invocation, the
forwarding calls among the effects of the corresponding callback are
exactly the one corresponding delegate hook with identical arguments, and
no other delegate hook. The hypothesis keeps ConnectDone from faulting. -/
theorem hooks_forward_exactly_once (ct : clientTracerMetrics) (now start : GTime)
    (c : HookCall) (hs : ct.ConnectStartTime = some start) :
    (dispatch ct now c).map (fun r => delegateCalls r.2) = some [c] := by
  cases c with
  | getConn hostPort => simp [dispatch, clientTracerMetrics.GetConn]
  | gotConn info =>
    obtain ⟨r, w⟩ := info
    cases r <;> cases w <;> simp [dispatch, clientTracerMetrics.GotConn]
  | putIdleConn err =>
    cases err <;> simp [dispatch, clientTracerMetrics.PutIdleConn]
  | gotFirstResponseByte => simp [dispatch, clientTracerMetrics.GotFirstResponseByte]
  | got100Continue => simp [dispatch, clientTracerMetrics.Got100Continue]
  | got1xxResponse code header => simp [dispatch, clientTracerMetrics.Got1xxResponse]
  | dnsStart info => simp [dispatch, clientTracerMetrics.DNSStart]
  | dnsDone info => simp [dispatch, clientTracerMetrics.DNSDone]
  | connectStart nw a =>
    by_cases hr : ct.Request.RemoteAddr = "" <;>
      simp [dispatch, clientTracerMetrics.ConnectStart, hr]
  | connectDone nw a e => simp [dispatch, clientTracerMetrics.ConnectDone, hs]
  | tlsHandshakeStart => simp [dispatch, clientTracerMetrics.TLSHandshakeStart]
  | tlsHandshakeDone s e => simp [dispatch, clientTracerMetrics.TLSHandshakeDone]
  | wroteHeaderField k v => simp [dispatch, clientTracerMetrics.WroteHeaderField]
  | wroteHeaders => simp [dispatch, clientTracerMetrics.WroteHeaders]
  | wait100Continue => simp [dispatch, clientTracerMetrics.Wait100Continue]
  | wroteRequest info => simp [dispatch, clientTracerMetrics.WroteRequest]

/-- C5 witness: a PutIdleConn invocation with a non-nil error on a concrete
tracer forwards exactly that invocation. -/
theorem hooks_forward_exactly_once_witness :
    ctStarted.ConnectStartTime = some ⟨0⟩
    ∧ (dispatch ctStarted ⟨3⟩ (HookCall.putIdleConn (some "pool full"))).map
        (fun r => delegateCalls r.2) = some [HookCall.putIdleConn (some "pool full")] :=
  ⟨rfl,
    hooks_forward_exactly_once ctStarted ⟨3⟩ ⟨0⟩
      (HookCall.putIdleConn (some "pool full")) rfl⟩

/-- C6: in every callback, the own bookkeeping of the tracer (gauge
updates, histogram record, attribution-field write, timestamp capture)
comes strictly before the forwarding call to the delegate: the effect list
of any completed invocation is exactly its non-delegate effects followed by
the single corresponding delegate call. -/
theorem bookkeeping_precedes_delegate (ct : clientTracerMetrics) (now : GTime)
    (c : HookCall) (st : clientTracerMetrics) (effs : List Effect)
    (h : dispatch ct now c = some (st, effs)) :
    effs = bookkeeping effs ++ [Effect.delegate c] := by
  cases c with
  | gotConn info =>
    obtain ⟨r, w⟩ := info
    cases r <;> cases w <;>
      (simp [dispatch, clientTracerMetrics.GotConn] at h;
        obtain ⟨-, rfl⟩ := h; rfl)
  | putIdleConn err =>
    cases err <;>
      (simp [dispatch, clientTracerMetrics.PutIdleConn] at h;
        obtain ⟨-, rfl⟩ := h; rfl)
  | connectStart nw a =>
    by_cases hr : ct.Request.RemoteAddr = "" <;>
      (simp [dispatch, clientTracerMetrics.ConnectStart, hr] at h;
        obtain ⟨-, rfl⟩ := h; rfl)
  | connectDone nw a e =>
    cases hst : ct.ConnectStartTime with
    | none => simp [dispatch, clientTracerMetrics.ConnectDone, hst] at h
    | some t0 =>
      simp [dispatch, clientTracerMetrics.ConnectDone, hst] at h
      obtain ⟨-, rfl⟩ := h
      rfl
  | getConn hostPort =>
    simp [dispatch, clientTracerMetrics.GetConn] at h
    obtain ⟨-, rfl⟩ := h
    rfl
  | gotFirstResponseByte =>
    simp [dispatch, clientTracerMetrics.GotFirstResponseByte] at h
    obtain ⟨-, rfl⟩ := h
    rfl
  | got100Continue =>
    simp [dispatch, clientTracerMetrics.Got100Continue] at h
    obtain ⟨-, rfl⟩ := h
    rfl
  | got1xxResponse code header =>
    simp [dispatch, clientTracerMetrics.Got1xxResponse] at h
    obtain ⟨-, rfl⟩ := h
    rfl
  | dnsStart info =>
    simp [dispatch, clientTracerMetrics.DNSStart] at h
    obtain ⟨-, rfl⟩ := h
    rfl
  | dnsDone info =>
    simp [dispatch, clientTracerMetrics.DNSDone] at h
    obtain ⟨-, rfl⟩ := h
    rfl
  | tlsHandshakeStart =>
    simp [dispatch, clientTracerMetrics.TLSHandshakeStart] at h
    obtain ⟨-, rfl⟩ := h
    rfl
  | tlsHandshakeDone s e =>
    simp [dispatch, clientTracerMetrics.TLSHandshakeDone] at h
    obtain ⟨-, rfl⟩ := h
    rfl
  | wroteHeaderField k v =>
    simp [dispatch, clientTracerMetrics.WroteHeaderField] at h
    obtain ⟨-, rfl⟩ := h
    rfl
  | wroteHeaders =>
    simp [dispatch, clientTracerMetrics.WroteHeaders] at h
    obtain ⟨-, rfl⟩ := h
    rfl
  | wait100Continue =>
    simp [dispatch, clientTracerMetrics.Wait100Continue] at h
    obtain ⟨-, rfl⟩ := h
    rfl
  | wroteRequest info =>
    simp [dispatch, clientTracerMetrics.WroteRequest] at h
    obtain ⟨-, rfl⟩ := h
    rfl

/-- C6 witness: a ConnectStart invocation on a concrete tracer with an
empty attribution field performs the field write and the timestamp capture
before the forwarding call. -/
theorem bookkeeping_precedes_delegate_witness :
    dispatch ctFresh ⟨5⟩ (HookCall.connectStart "tcp" "1.2.3.4:443") =
      some (⟨⟨"1.2.3.4:443", "GET example.org"⟩, some ⟨5⟩, noopTrace⟩,
        [Effect.setRemoteAddr "1.2.3.4:443",
         Effect.setConnectStartTime ⟨5⟩,
         Effect.delegate (HookCall.connectStart "tcp" "1.2.3.4:443")])
    ∧ ([Effect.setRemoteAddr "1.2.3.4:443",
        Effect.setConnectStartTime ⟨5⟩,
        Effect.delegate (HookCall.connectStart "tcp" "1.2.3.4:443")] :
          List Effect) =
      bookkeeping
        [Effect.setRemoteAddr "1.2.3.4:443",
         Effect.setConnectStartTime ⟨5⟩,
         Effect.delegate (HookCall.connectStart "tcp" "1.2.3.4:443")] ++
        [Effect.delegate (HookCall.connectStart "tcp" "1.2.3.4:443")] :=
  ⟨rfl,
    bookkeeping_precedes_delegate ctFresh ⟨5⟩
      (HookCall.connectStart "tcp" "1.2.3.4:443")
      ⟨⟨"1.2.3.4:443", "GET example.org"⟩, some ⟨5⟩, noopTrace⟩
      [Effect.setRemoteAddr "1.2.3.4:443",
       Effect.setConnectStartTime ⟨5⟩,
       Effect.delegate (HookCall.connectStart "tcp" "1.2.3.4:443")] rfl⟩

/-- A metric state with zeroed gauges and no observations. -/
def msZero : MetricState :=
  ⟨fun _ _ => 0, fun _ => []⟩

lemma applyEffect_unavailable (be : MetricBackend) (ms : MetricState)
    (e : Effect)
    (h : (be.gaugeAvailable = false ∧ be.histAvailable = false)
      ∨ be.attrAvailable = false) :
    applyEffect be ms e = ms := by
  rcases h with ⟨hg, hh⟩ | ha <;> cases e <;> simp [applyEffect, *]

lemma applyEffects_unavailable (be : MetricBackend) (ms : MetricState)
    (effs : List Effect)
    (h : (be.gaugeAvailable = false ∧ be.histAvailable = false)
      ∨ be.attrAvailable = false) :
    applyEffects be ms effs = ms := by
  induction effs with
  | nil => rfl
  | cons e rest ih =>
    show applyEffects be (applyEffect be ms e) rest = ms
    rw [applyEffect_unavailable be ms e h]
    exact ih

/-- C7: when the metric instruments are unavailable (both the gauge and the
histogram handle, or the attribution map), the effects of any completed
callback invocation leave the metric backend state untouched: the metrics
side of the callback degrades to a no-op and, the backend absorbing the
calls rather than failing, the request path is never broken. -/
theorem unavailable_instruments_noop (ct : clientTracerMetrics) (now : GTime)
    (c : HookCall) (be : MetricBackend) (ms : MetricState)
    (st : clientTracerMetrics) (effs : List Effect)
    (hun : (be.gaugeAvailable = false ∧ be.histAvailable = false)
      ∨ be.attrAvailable = false)
    (_h : dispatch ct now c = some (st, effs)) :
    applyEffects be ms effs = ms :=
  applyEffects_unavailable be ms effs hun

/-- C7 witness: a GotConn invocation on a concrete tracer with a fully
unavailable backend leaves the zero metric state unchanged. -/
theorem unavailable_instruments_noop_witness :
    applyEffects ⟨false, false, false⟩ msZero
      (ctStarted.GotConn ⟨false, false⟩).2 = msZero :=
  unavailable_instruments_noop ctStarted ⟨0⟩
    (HookCall.gotConn ⟨false, false⟩) ⟨false, false, false⟩ msZero
    ctStarted (ctStarted.GotConn ⟨false, false⟩).2
    (Or.inl ⟨rfl, rfl⟩) rfl

/-- C8 counterexample: the claim says that after any sequence of
ConnectStart calls the attribution field holds the addr of the first call.
Starting from an empty field, the sequence ConnectStart(tcp, empty addr)
then ConnectStart(tcp, 1.2.3.4:443) leaves the field holding the second
addr, not the first (the first write stored the empty string, so the field
still counted as unset). -/
theorem connectStart_first_addr_cex :
    ctFresh.Request.RemoteAddr = ""
    ∧ (runConnectStarts ctFresh
        [(⟨0⟩, "tcp", ""), (⟨1⟩, "tcp", "1.2.3.4:443")]).Request.RemoteAddr
      = "1.2.3.4:443"
    ∧ ("1.2.3.4:443" : String) ≠ "" := by
  refine ⟨rfl, rfl, by decide⟩

lemma connectStart_remoteAddr (ct : clientTracerMetrics) (now : GTime)
    (network addr : String) :
    ((ct.ConnectStart now network addr).1).Request.RemoteAddr =
      if ct.Request.RemoteAddr = "" then addr else ct.Request.RemoteAddr := by
  by_cases hr : ct.Request.RemoteAddr = "" <;>
    simp [clientTracerMetrics.ConnectStart, hr]

lemma runConnectStarts_nonempty_fixed (calls : List (GTime × String × String)) :
    ∀ ct : clientTracerMetrics, ct.Request.RemoteAddr ≠ "" →
      (runConnectStarts ct calls).Request.RemoteAddr = ct.Request.RemoteAddr := by
  induction calls with
  | nil => intro ct _; rfl
  | cons p rest ih =>
    intro ct h
    obtain ⟨t, nw, a⟩ := p
    show (runConnectStarts (ct.ConnectStart t nw a).1 rest).Request.RemoteAddr
      = ct.Request.RemoteAddr
    have hstep : ((ct.ConnectStart t nw a).1).Request.RemoteAddr
        = ct.Request.RemoteAddr := by
      rw [connectStart_remoteAddr]
      exact if_neg h
    rw [ih _ (by rw [hstep]; exact h), hstep]

/-- C8 amended: ConnectStart writes addr into Request.RemoteAddr only when
that field is currently empty, and once the field is non-empty any later
ConnectStart leaves it unchanged; hence after any sequence of ConnectStart
calls starting from an empty field whose first call carries a non-empty
addr, the field holds the addr of that first call. -/
theorem ConnectStart_sets_addr_once (ct : clientTracerMetrics)
    (calls : List (GTime × String × String)) (first : GTime × String × String)
    (h0 : ct.Request.RemoteAddr = "") (hne : first.2.2 ≠ "") :
    (∀ ct2 : clientTracerMetrics, ∀ now : GTime, ∀ network addr : String,
      ((ct2.ConnectStart now network addr).1).Request.RemoteAddr =
        if ct2.Request.RemoteAddr = "" then addr else ct2.Request.RemoteAddr)
    ∧ (runConnectStarts ct (first :: calls)).Request.RemoteAddr = first.2.2 := by
  refine ⟨fun ct2 now network addr => connectStart_remoteAddr ct2 now network addr, ?_⟩
  obtain ⟨t, nw, a⟩ := first
  show (runConnectStarts (ct.ConnectStart t nw a).1 calls).Request.RemoteAddr = a
  have hstep : ((ct.ConnectStart t nw a).1).Request.RemoteAddr = a := by
    rw [connectStart_remoteAddr]
    exact if_pos h0
  rw [runConnectStarts_nonempty_fixed calls _ (by rw [hstep]; exact hne), hstep]

/-- C8 amended witness: a first call with a non-empty addr on a tracer with
an empty field, followed by a second call with a different addr. -/
theorem ConnectStart_sets_addr_once_witness :
    ctFresh.Request.RemoteAddr = ""
    ∧ ((⟨0⟩, "tcp", "1.2.3.4:443") : GTime × String × String).2.2 ≠ ""
    ∧ ((∀ ct2 : clientTracerMetrics, ∀ now : GTime, ∀ network addr : String,
        ((ct2.ConnectStart now network addr).1).Request.RemoteAddr =
          if ct2.Request.RemoteAddr = "" then addr else ct2.Request.RemoteAddr)
      ∧ (runConnectStarts ctFresh
          [(⟨0⟩, "tcp", "1.2.3.4:443"), (⟨1⟩, "tcp", "5.6.7.8:443")]).Request.RemoteAddr
        = ((⟨0⟩, "tcp", "1.2.3.4:443") : GTime × String × String).2.2) :=
  ⟨rfl, by decide,
    ConnectStart_sets_addr_once ctFresh [(⟨1⟩, "tcp", "5.6.7.8:443")]
      (⟨0⟩, "tcp", "1.2.3.4:443") rfl (by decide)⟩

lemma dispatch_preserves_start (ct : clientTracerMetrics) (now : GTime)
    (c : HookCall) (st : clientTracerMetrics) (effs : List Effect)
    (hc : ∀ nw a, c ≠ HookCall.connectStart nw a)
    (h : dispatch ct now c = some (st, effs)) :
    st.ConnectStartTime = ct.ConnectStartTime := by
  cases c with
  | connectStart nw a => exact absurd rfl (hc nw a)
  | connectDone nw a e =>
    cases hst : ct.ConnectStartTime with
    | none => simp [dispatch, clientTracerMetrics.ConnectDone, hst] at h
    | some t0 =>
      simp [dispatch, clientTracerMetrics.ConnectDone, hst] at h
      obtain ⟨rfl, -⟩ := h
      exact hst
  | gotConn info =>
    obtain ⟨r, w⟩ := info
    cases r <;> cases w <;>
      (simp [dispatch, clientTracerMetrics.GotConn] at h;
        obtain ⟨rfl, -⟩ := h; rfl)
  | putIdleConn err =>
    cases err <;>
      (simp [dispatch, clientTracerMetrics.PutIdleConn] at h;
        obtain ⟨rfl, -⟩ := h; rfl)
  | getConn hostPort =>
    simp [dispatch, clientTracerMetrics.GetConn] at h
    obtain ⟨rfl, -⟩ := h
    rfl
  | gotFirstResponseByte =>
    simp [dispatch, clientTracerMetrics.GotFirstResponseByte] at h
    obtain ⟨rfl, -⟩ := h
    rfl
  | got100Continue =>
    simp [dispatch, clientTracerMetrics.Got100Continue] at h
    obtain ⟨rfl, -⟩ := h
    rfl
  | got1xxResponse code header =>
    simp [dispatch, clientTracerMetrics.Got1xxResponse] at h
    obtain ⟨rfl, -⟩ := h
    rfl
  | dnsStart info =>
    simp [dispatch, clientTracerMetrics.DNSStart] at h
    obtain ⟨rfl, -⟩ := h
    rfl
  | dnsDone info =>
    simp [dispatch, clientTracerMetrics.DNSDone] at h
    obtain ⟨rfl, -⟩ := h
    rfl
  | tlsHandshakeStart =>
    simp [dispatch, clientTracerMetrics.TLSHandshakeStart] at h
    obtain ⟨rfl, -⟩ := h
    rfl
  | tlsHandshakeDone s e =>
    simp [dispatch, clientTracerMetrics.TLSHandshakeDone] at h
    obtain ⟨rfl, -⟩ := h
    rfl
  | wroteHeaderField k v =>
    simp [dispatch, clientTracerMetrics.WroteHeaderField] at h
    obtain ⟨rfl, -⟩ := h
    rfl
  | wroteHeaders =>
    simp [dispatch, clientTracerMetrics.WroteHeaders] at h
    obtain ⟨rfl, -⟩ := h
    rfl
  | wait100Continue =>
    simp [dispatch, clientTracerMetrics.Wait100Continue] at h
    obtain ⟨rfl, -⟩ := h
    rfl
  | wroteRequest info =>
    simp [dispatch, clientTracerMetrics.WroteRequest] at h
    obtain ⟨rfl, -⟩ := h
    rfl

lemma runCalls_preserves_none (tcs : List (GTime × HookCall)) :
    ∀ ct : clientTracerMetrics,
      (∀ p ∈ tcs, ∀ nw a, p.2 ≠ HookCall.connectStart nw a) →
      ct.ConnectStartTime = none →
      ∀ st, runCalls ct tcs = some st → st.ConnectStartTime = none := by
  induction tcs with
  | nil =>
    intro ct _ h0 st hrun
    cases hrun
    exact h0
  | cons p rest ih =>
    intro ct hnc h0 st hrun
    obtain ⟨now, c⟩ := p
    rw [runCalls] at hrun
    cases hd : dispatch ct now c with
    | none => rw [hd] at hrun; cases hrun
    | some r =>
      rw [hd] at hrun
      obtain ⟨st1, effs1⟩ := r
      have hpres : st1.ConnectStartTime = ct.ConnectStartTime :=
        dispatch_preserves_start ct now c st1 effs1
          (hnc (now, c) (List.mem_cons_self _ _)) hd
      exact ih st1
        (fun q hq => hnc q (List.mem_cons_of_mem _ hq))
        (hpres.trans h0) st hrun

/-- C10: the connect-start timestamp is nil at construction and a sequence
of callbacks containing no ConnectStart can never make it non-nil;
ConnectDone faults (nil-pointer dereference through gtime.Time.Sub,
modelled as none) exactly when the stored timestamp is nil, and completes
whenever some ConnectStart ran before, ConnectStart being the one callback
that sets the timestamp. -/
theorem ConnectStartTime_construction_and_use (request : http.Request)
    (base : httptrace.ClientTrace) (ct : clientTracerMetrics) (now : GTime)
    (network addr : String) (err : Option String)
    (tcs : List (GTime × HookCall))
    (hnc : ∀ p ∈ tcs, ∀ nw a, p.2 ≠ HookCall.connectStart nw a) :
    (newClientTracerMetrics request base).ConnectStartTime = none
    ∧ (∀ st, runCalls (newClientTracerMetrics request base) tcs = some st →
        st.ConnectStartTime = none)
    ∧ (ct.ConnectStartTime = none → ct.ConnectDone now network addr err = none)
    ∧ (∀ t, ct.ConnectStartTime = some t →
        (ct.ConnectDone now network addr err).isSome = true)
    ∧ ((ct.ConnectStart now network addr).1).ConnectStartTime = some now := by
  refine ⟨rfl, ?_, ?_, ?_, ?_⟩
  · exact runCalls_preserves_none tcs _ hnc rfl
  · intro h0
    simp [clientTracerMetrics.ConnectDone, h0]
  · intro t ht
    simp [clientTracerMetrics.ConnectDone, ht]
  · by_cases hr : ct.Request.RemoteAddr = "" <;>
      simp [clientTracerMetrics.ConnectStart, hr]

/-- C10 witness: from a freshly constructed tracer, a sequence of GetConn
and GotConn callbacks leaves the timestamp nil, ConnectDone on a nil
timestamp faults, and it completes on a tracer that ran ConnectStart. -/
theorem ConnectStartTime_construction_and_use_witness :
    (∀ p ∈ [((⟨1⟩ : GTime), HookCall.getConn "example.org:443"),
            (⟨2⟩, HookCall.gotConn ⟨true, true⟩)],
        ∀ nw a, p.2 ≠ HookCall.connectStart nw a)
    ∧ ((newClientTracerMetrics ⟨"", "GET example.org"⟩ noopTrace).ConnectStartTime
          = none
      ∧ (∀ st, runCalls (newClientTracerMetrics ⟨"", "GET example.org"⟩ noopTrace)
            [((⟨1⟩ : GTime), HookCall.getConn "example.org:443"),
             (⟨2⟩, HookCall.gotConn ⟨true, true⟩)] = some st →
          st.ConnectStartTime = none)
      ∧ (ctFresh.ConnectStartTime = none →
          ctFresh.ConnectDone ⟨7⟩ "tcp" "9.9.9.9:80" none = none)
      ∧ (∀ t, ctFresh.ConnectStartTime = some t →
          (ctFresh.ConnectDone ⟨7⟩ "tcp" "9.9.9.9:80" none).isSome = true)
      ∧ ((ctFresh.ConnectStart ⟨7⟩ "tcp" "9.9.9.9:80").1).ConnectStartTime
          = some ⟨7⟩) := by
  have hnc : ∀ p ∈ [((⟨1⟩ : GTime), HookCall.getConn "example.org:443"),
      (⟨2⟩, HookCall.gotConn ⟨true, true⟩)],
      ∀ nw a, p.2 ≠ HookCall.connectStart nw a := by
    intro p hp nw a
    fin_cases hp <;> simp
  exact ⟨hnc,
    ConnectStartTime_construction_and_use ⟨"", "GET example.org"⟩ noopTrace
      ctFresh ⟨7⟩ "tcp" "9.9.9.9:80" none
      [((⟨1⟩ : GTime), HookCall.getConn "example.org:443"),
       (⟨2⟩, HookCall.gotConn ⟨true, true⟩)] hnc⟩
